import Mathlib

set_option maxHeartbeats 1000000

namespace Adaptune

/-! Shallow embedding of the adaptune repository: the settings wizards
(src/adaptune/preferences.py and src/adaptune/preference.py), the
module-level default configuration (src/adaptune/config.py) and the
adaptive-filter driver (src/src/audapter/driver/filter_driver.py). -/

/-- Python scalar values appearing as schema keys, selectable leaf values
and configuration entries: strings and integers. -/
inductive Val where
  | s (str : String)
  | n (int : Int)
deriving DecidableEq

/-- Python truthiness of a scalar, as used by `if result:` in
`PreferenceApp.select_index`: the empty string and `0` are falsy. -/
def Val.truthy : Val → Bool
  | .s str => str != ""
  | .n int => int != 0

/-- Python `str(x)` on a scalar, as used when the selection is appended to
the breadcrumb in `get_prompt_tokens`. -/
def Val.toDisplay : Val → String
  | .s str => str
  | .n int => toString int

/-- A node of the nested settings structure loaded from `.attributes.json`:
a JSON object (Python `dict`, key order preserved), a JSON array of
selectable scalars, or a bare scalar. -/
inductive Node where
  | dict (entries : List (String × Node))
  | list (vals : List Val)
  | val (v : Val)

/-- Python `attributes[key]` on a dict: lookup by string key; an integer
key is absent from every schema dict here (a miss is a `KeyError`). -/
def lookupNode (entries : List (String × Node)) (k : Val) : Option Node :=
  match k with
  | .s str => entries.lookup str
  | .n _ => none

/-- The keys of a schema dict, in presentation order, as selectable values
(Python `list(attr_child.keys())`). -/
def dictKeys (entries : List (String × Node)) : List Val :=
  entries.map (fun e => Val.s e.1)

/-- The `hw_params` section of `confdict` (loaded from `config.json`).
`formatname` is the key written by `PreferenceApp._setval_if_key_is_node`
(preferences.py:404); `fomatname` is the differently spelled key written by
`ConfigurationApp._pref_conf` (preference.py:319). -/
structure HwParams where
  rate : Option Val
  formatname : Option Val
  fomatname : Option Val
  periodsize : Option Val
  channels : Option Val
deriving DecidableEq

/-- The `filter_params` section of `confdict`: `mu` is written only by
`ConfigurationApp._pref_conf`, `w` by both wizards. -/
structure FilterParams where
  mu : Option Val
  w : Option Val
deriving DecidableEq

/-- The `devices` section of `confdict`. -/
structure Devices where
  main : Option Val
  monitor : Option Val
  input : Option Val
deriving DecidableEq

/-- The mutable configuration dictionary `confdict` assembled by the
wizards, restricted to the fields either wizard can write. -/
structure Conf where
  hw_params : HwParams
  filter_params : FilterParams
  filter_domain : Option Val
  filter_algo : Option Val
  devices : Devices
deriving DecidableEq

/-- `self.confdict["hw_params"][key_prev] = selected` under the guard
`key_prev in ["rate", "periodsize", "channels"]` (preferences.py:401-402):
dispatch on the literal key.  The final fallback is unreachable in every
use because the caller guards membership first. -/
def HwParams.setField (h : HwParams) (k : Val) (v : Val) : HwParams :=
  if k = Val.s ("rate") then { h with rate := some v }
  else if k = Val.s ("periodsize") then { h with periodsize := some v }
  else if k = Val.s ("channels") then { h with channels := some v }
  else h

/-- `self.confdict["devices"][key_prev] = selected` under the guard
`key_prev in ["main", "monitor", "input"]` (preferences.py:415-416).  The
fallback is unreachable in every use (in Python an arbitrary key would
create a fresh dict entry, but both call sites guard membership first). -/
def Devices.setField (d : Devices) (k : Val) (v : Val) : Devices :=
  if k = Val.s ("main") then { d with main := some v }
  else if k = Val.s ("monitor") then { d with monitor := some v }
  else if k = Val.s ("input") then { d with input := some v }
  else d

/-- `self.confdict[key_prev] = selected` under the guard
`key_prev in ["filter_domain", "filter_algo"]` (preferences.py:411-412). -/
def topSet (c : Conf) (k : Val) (v : Val) : Conf :=
  if k = Val.s ("filter_domain") then { c with filter_domain := some v }
  else if k = Val.s ("filter_algo") then { c with filter_algo := some v }
  else c

/-- The configuration write performed by
`PreferenceApp._setval_if_key_is_node` (src/adaptune/preferences.py:397-416),
an `elif` chain keyed on `key_prev`.  A `key_prev` matching no branch falls
through silently: the Python function has no error path, returns `None`
either way, and proceeds to the same post-processing. -/
def setval_if_key_is_node (c : Conf) (key_prev selected : Val) : Conf :=
  if key_prev = Val.s ("rate") ∨ key_prev = Val.s ("periodsize") ∨
      key_prev = Val.s ("channels") then
    { c with hw_params := c.hw_params.setField key_prev selected }
  else if key_prev = Val.s ("alsa") ∨ key_prev = Val.s ("sounddevice") then
    { c with hw_params := { c.hw_params with formatname := some selected } }
  else if key_prev = Val.s ("w") then
    { c with filter_params := { c.filter_params with w := some selected } }
  else if key_prev = Val.s ("filter_domain") ∨ key_prev = Val.s ("filter_algo") then
    topSet c key_prev selected
  else if key_prev = Val.s ("main") ∨ key_prev = Val.s ("monitor") ∨
      key_prev = Val.s ("input") then
    { c with devices := c.devices.setField key_prev selected }
  else c

/-- The configuration write performed by `ConfigurationApp.select_item`'s
inner `_pref_conf` (src/adaptune/preference.py:313-350).  The Python
condition `choice == "alsa" or "sounddevice"` is an `or` whose right
operand is the nonempty (hence truthy) string literal `"sounddevice"`, so
that condition holds for every `choice`; the later branch
`choice == "main" or "monitor" or "input"` has the same shape.  `none`
models the `return False` of the final `else`; every write branch falls
off the end of the function (Python `None`), modelled as `some`. -/
def pref_conf (choice key : Val) (c : Conf) : Option Conf :=
  if choice = Val.s ("rate") then
    some { c with hw_params := { c.hw_params with rate := some key } }
  else if choice = Val.s ("alsa") ∨ Val.truthy (Val.s ("sounddevice")) = true then
    some { c with hw_params := { c.hw_params with fomatname := some key } }
  else if choice = Val.s ("periodsize") then
    some { c with hw_params := { c.hw_params with periodsize := some key } }
  else if choice = Val.s ("channels") then
    some { c with hw_params := { c.hw_params with channels := some key } }
  else if choice = Val.s ("mu") then
    some { c with filter_params := { c.filter_params with mu := some key } }
  else if choice = Val.s ("w") then
    some { c with filter_params := { c.filter_params with w := some key } }
  else if choice = Val.s ("filter_domain") then
    some { c with filter_domain := some key }
  else if choice = Val.s ("filter_algo") then
    some { c with filter_algo := some key }
  else if choice = Val.s ("main") ∨ Val.truthy (Val.s ("monitor")) = true ∨
      Val.truthy (Val.s ("input")) = true then
    some { c with devices := c.devices.setField choice key }
  else none

/-- The configuration destinations named by the spec's RoutingTable, used
to compare `setval_if_key_is_node` against the spec's one-destination-per-key
table. -/
inductive Dest where
  | rate
  | formatname
  | periodsize
  | channels
  | w
  | filter_domain
  | filter_algo
  | dmain
  | dmonitor
  | dinput
deriving DecidableEq

/-- The destination `setval_if_key_is_node` writes for a given `key_prev`
(`none` when the key matches no branch), read off its `elif` chain. -/
def routeDest (k : Val) : Option Dest :=
  if k = Val.s ("rate") then some Dest.rate
  else if k = Val.s ("periodsize") then some Dest.periodsize
  else if k = Val.s ("channels") then some Dest.channels
  else if k = Val.s ("alsa") ∨ k = Val.s ("sounddevice") then some Dest.formatname
  else if k = Val.s ("w") then some Dest.w
  else if k = Val.s ("filter_domain") then some Dest.filter_domain
  else if k = Val.s ("filter_algo") then some Dest.filter_algo
  else if k = Val.s ("main") then some Dest.dmain
  else if k = Val.s ("monitor") then some Dest.dmonitor
  else if k = Val.s ("input") then some Dest.dinput
  else none

/-- Write a value at a single destination of the configuration. -/
def writeDest (c : Conf) (d : Dest) (v : Val) : Conf :=
  match d with
  | .rate => { c with hw_params := { c.hw_params with rate := some v } }
  | .formatname => { c with hw_params := { c.hw_params with formatname := some v } }
  | .periodsize => { c with hw_params := { c.hw_params with periodsize := some v } }
  | .channels => { c with hw_params := { c.hw_params with channels := some v } }
  | .w => { c with filter_params := { c.filter_params with w := some v } }
  | .filter_domain => { c with filter_domain := some v }
  | .filter_algo => { c with filter_algo := some v }
  | .dmain => { c with devices := { c.devices with main := some v } }
  | .dmonitor => { c with devices := { c.devices with monitor := some v } }
  | .dinput => { c with devices := { c.devices with input := some v } }

/-- Apply an optional routing destination: no destination, no write. -/
def applyRoute (c : Conf) (r : Option Dest) (v : Val) : Conf :=
  match r with
  | none => c
  | some d => writeDest c d v

/-! ## PreferenceApp navigator (src/adaptune/preferences.py) -/

/-- The mutable navigation state of `PreferenceApp` relevant to selection:
`attributes` (the currently presented sub-tree, the literal empty list after
descending into a leaf list, mirroring `self.attributes = []`), `nodes`
(the currently presented choices), `current_node`, `confdict`, `all_done`
and the display `breadcrumb` string.  `current_node` defaults to the class
attribute `""`. -/
structure PrefState where
  attributes : Node
  nodes : List Val
  current_node : Val
  confdict : Conf
  all_done : Bool
  breadcrumb : String

/-- The `str(self.current_node) in ["main", "monitor", "input"]` guard of
`_work_before_node` (preferences.py:388-391): at a leaf list, keep a
device-position `current_node`, otherwise overwrite it with the selected
item. -/
def devKeep (cn k : Val) : Val :=
  if cn = Val.s ("main") ∨ cn = Val.s ("monitor") ∨ cn = Val.s ("input") then cn
  else k

/-- One `PreferenceApp.select_index` call (preferences.py:339-429) for a
selected item `key`, with `devlist` the live device inventory returned by
`sounddevice.query_devices()`.  `none` models a Python `KeyError` from
`attributes[key]`.  On a dict: the three device-position keys switch the
choices to the device inventory and record `current_node`; any other key
descends via `set_child_control` (a dict child presents its keys, a list
child presents its values and sets `attributes` to `[]`).  On a list (the
state after descending into a leaf list): `current_node` is overwritten
with the selected item unless it is a device-position key, and — when the
selected item is truthy — `_setval_if_key_is_node` runs with
`key_prev = self.current_node` and `all_done` is set.  On a bare scalar
neither `isinstance` test holds and the call changes nothing. -/
def select_index (devlist : List String) (st : PrefState) (key : Val) :
    Option PrefState :=
  match st.attributes with
  | .dict entries =>
    if key = Val.s ("main") ∨ key = Val.s ("monitor") ∨ key = Val.s ("input") then
      some { st with
        current_node := key
        attributes := Node.list []
        nodes := devlist.map Val.s }
    else
      match lookupNode entries key with
      | none => none
      | some (.dict e2) =>
        some { st with attributes := Node.dict e2, nodes := dictKeys e2 }
      | some (.list vs) =>
        some { st with attributes := Node.list [], nodes := vs }
      | some (.val v) =>
        some { st with attributes := Node.val v }
  | .list _ =>
    if key.truthy = true then
      some { st with
        attributes := Node.list []
        current_node := devKeep st.current_node key
        confdict := setval_if_key_is_node st.confdict (devKeep st.current_node key) key
        all_done := true }
    else
      some { st with
        attributes := Node.list []
        current_node := devKeep st.current_node key }
  | .val _ => some st

/-- The breadcrumb update of `PreferenceApp.get_prompt_tokens`
(preferences.py:321-327): when a selection `selected` is answered, a
nonempty breadcrumb first gains `" >"`, then `" " + str(selected)` is
appended — for every selection, leaf values included. -/
def breadcrumbAdd (b : String) (selected : Val) : String :=
  (if b ≠ "" then b ++ (" >") else b) ++ (" ") ++ selected.toDisplay

/-- One answered prompt round of `PreferenceApp`: `get_prompt_tokens`
appends the selection to the breadcrumb and then calls `select_index`. -/
def promptStep (devlist : List String) (st : PrefState) (selected : Val) :
    Option PrefState :=
  select_index devlist { st with breadcrumb := breadcrumbAdd st.breadcrumb selected }
    selected

/-- Run a sequence of answered selections through `PreferenceApp`. -/
def runTrace (devlist : List String) (st : PrefState) : List Val → Option PrefState
  | [] => some st
  | k :: ks =>
    match promptStep devlist st k with
    | none => none
    | some st2 => runTrace devlist st2 ks

/-- The initial `PreferenceApp` state produced by `set_header`
(preferences.py:190-193): `attributes` and `nodes` come from the schema
header, `current_node` is the class default `""`, the breadcrumb is the
class default `""`. -/
def initState (schema : List (String × Node)) (c0 : Conf) : PrefState :=
  { attributes := Node.dict schema
    nodes := dictKeys schema
    current_node := Val.s ("")
    confdict := c0
    all_done := false
    breadcrumb := "" }

/-- The effect of `PreferenceApp._initialize`/`set_header` when the wizard
returns to the tree root for the next round (preferences.py:445-447):
`attributes` and `nodes` are reset to the schema header; `breadcrumb`,
`current_node` and `confdict` are instance attributes that are **not**
reset. -/
def backToRoot (schema : List (String × Node)) (st : PrefState) : PrefState :=
  { st with attributes := Node.dict schema, nodes := dictKeys schema }

/-- The ordered Branch labels of a selection trace over a schema tree: a
selection whose child is a dict is a Branch traversal; selections that
descend into a value list, and the leaf value itself, are not Branch
labels.  This renders the spec's notion of breadcrumb content for
comparison with the code's. -/
def branchLabels : Node → List Val → List Val
  | _, [] => []
  | .dict entries, k :: ks =>
    match lookupNode entries k with
    | some (.dict e2) => k :: branchLabels (Node.dict e2) ks
    | some (.list vs) => branchLabels (Node.list vs) ks
    | some (.val v) => branchLabels (Node.val v) ks
    | none => []
  | .list vs, _ :: ks => branchLabels (Node.list vs) ks
  | .val v, _ :: ks => branchLabels (Node.val v) ks

/-! ## Cursor movement (all three wizard variants) -/

/-- The selection widget state shared by the three variants
(`InquirerControl`): the presented choices and the selected index (a
Python `int`). -/
structure InquirerControl where
  nodes : List Val
  selected_index : Int

/-- `choice_count` (preferences.py:49-51): the number of presented
choices. -/
def InquirerControl.choice_count (ic : InquirerControl) : Int :=
  (ic.nodes.length : Int)

/-- `move_cursor_down` (preferences.py:228-232, preference.py:225-228,
config.py:170-172): `(selected_index + 1) % choice_count`; Lean's `Int`
`%` is Euclidean like Python's `%` for a positive divisor. -/
def move_cursor_down (ic : InquirerControl) : InquirerControl :=
  { ic with selected_index := (ic.selected_index + 1) % ic.choice_count }

/-- `move_cursor_up` (preferences.py:234-238, preference.py:230-233,
config.py:175-177): `(selected_index - 1) % choice_count`. -/
def move_cursor_up (ic : InquirerControl) : InquirerControl :=
  { ic with selected_index := (ic.selected_index - 1) % ic.choice_count }

/-- `get_selection` (preferences.py:83-85): `self.nodes[self.selected_index]`,
an in-range read when the index lies in `[0, choice_count)`. -/
def InquirerControl.get_selection (ic : InquirerControl) : Option Val :=
  ic.nodes.get? ic.selected_index.toNat

/-! ## Adaptive filter engine (src/src/audapter/driver/filter_driver.py) -/

/-- The engine-call error taxonomy of spec §7 relevant to `tune`. -/
inductive EngineError where
  | BlockSizeMismatch
  | EngineStopped
deriving DecidableEq

/-- Modelled from the spec: `FilterModel` (imported by
src/src/audapter/driver/filter_driver.py from `..domain.model`, a module of
this repository that is not under src/).  Per the driver's constructor it
carries the algorithm name `model`, the `shape`, the step size `mu`, the
coefficient vector `w` and the forgetting factor `lambda_`; per spec §3/§4.4
the filter state additionally holds the observed-signal history window
`buf`, a cumulative error statistic `errAcc`, and is sized/validated by the
configured `periodsize`.  Sample values are idealized as rationals. -/
structure FilterModel where
  model : String
  shape : List Nat
  mu : ℚ
  lambda_ : ℚ
  w : List ℚ
  buf : List ℚ
  errAcc : ℚ
  periodsize : Nat
deriving DecidableEq

/-- Dot product of coefficient vector and history window. -/
def dot (a b : List ℚ) : ℚ :=
  (List.zipWith (fun x y => x * y) a b).sum

/-- Modelled from the spec: one per-sample adaptation step of
`FilterModel` (spec §4.4, time domain): shift the observed sample into the
history window, compute the filter output from the current weights and the
window, the instantaneous error `desired - output`, and an LMS-style
weight update proportional to error × step size × input sample. -/
def FilterModel.step (m : FilterModel) (d x : ℚ) : ℚ × FilterModel :=
  let buf2 := (x :: m.buf).take m.w.length
  let y := dot m.w buf2
  let e := d - y
  (y, { m with
    w := List.zipWith (fun wi xi => wi + m.mu * e * xi) m.w buf2
    buf := buf2
    errAcc := m.errAcc + e * e })

/-- Modelled from the spec: the per-sample loop of `FilterModel.apply`
over paired (desired, observed) samples. -/
def FilterModel.applyBlock : FilterModel → List ℚ → List ℚ → List ℚ × FilterModel
  | m, [], _ => ([], m)
  | m, _ :: _, [] => ([], m)
  | m, d :: ds, x :: xs =>
    let r1 := m.step d x
    let r2 := r1.2.applyBlock ds xs
    (r1.1 :: r2.1, r2.2)

/-- Modelled from the spec: `FilterModel.apply` (src/audapter/domain/model.py,
not under src/).  Spec §4.4: the block length `N` must exactly equal the
configured `periodSize`; a mismatched block fails with `BlockSizeMismatch`
rather than truncating or padding; otherwise the block is processed
sample by sample. -/
def FilterModel.apply (m : FilterModel) (desired observed : List ℚ) :
    Except EngineError (List ℚ × FilterModel) :=
  if desired.length = m.periodsize ∧ observed.length = m.periodsize then
    Except.ok (m.applyBlock desired observed)
  else
    Except.error EngineError.BlockSizeMismatch

/-- `FilterDriver` (filter_driver.py:13-23): holds `shape` and the
`filter_` model. -/
structure FilterDriver where
  shape : List Nat
  filter_ : FilterModel
deriving DecidableEq

/-- `FilterDriver.tune` (filter_driver.py:25-26):
`return self.filter_.apply(desired, data_in)` — a pure delegation, modelled
with explicit state passing: on success the filtered block together with
the driver holding the updated filter. -/
def FilterDriver.tune (fd : FilterDriver) (desired data_in : List ℚ) :
    Except EngineError (List ℚ × FilterDriver) :=
  match fd.filter_.apply desired data_in with
  | Except.ok r => Except.ok (r.1, { fd with filter_ := r.2 })
  | Except.error e => Except.error e

/-- `FilterDriver.get_filter_weights` (filter_driver.py:28-29):
`return self.filter_.w` — a bare attribute read with no assignment;
modelled as returning the read value together with the post-state. -/
def FilterDriver.get_filter_weights (fd : FilterDriver) : List ℚ × FilterDriver :=
  (fd.filter_.w, fd)

/-- An observable engine run: from driver `fd`, consuming the listed
(desired, observed) block pairs, each `tune` call succeeding and each step
recording the filtered output together with the weight snapshot
`get_filter_weights` returns after the block. -/
inductive TuneTrace :
    FilterDriver → List (List ℚ × List ℚ) → List (List ℚ × List ℚ) → Prop where
  | nil (fd : FilterDriver) : TuneTrace fd [] []
  | cons (fd fd2 : FilterDriver) (d x out : List ℚ)
      (blocks tr : List (List ℚ × List ℚ))
      (hstep : fd.tune d x = Except.ok (out, fd2))
      (htail : TuneTrace fd2 blocks tr) :
      TuneTrace fd ((d, x) :: blocks) ((out, fd2.get_filter_weights.1) :: tr)

/-! ## Module-level defaults (src/adaptune/config.py) -/

/-- Python `del config[k]` on a string-keyed dict modelled as an
association list with unique keys: remove the entry when present,
`KeyError` (`none`) when absent. -/
def dictDel : List (String × Node) → String → Option (List (String × Node))
  | [], _ => none
  | (k0, v) :: rest, k =>
    if k0 = k then some rest
    else
      match dictDel rest k with
      | none => none
      | some r => some ((k0, v) :: r)

/-- JSON rendering of a scalar. -/
def Val.render : Val → String
  | .s str => ("\"") ++ str ++ ("\"")
  | .n int => toString int

mutual

/-- A concrete JSON rendering standing in for `commentjson.dumps`, an
external collaborator of config.py; the claims about `dump_defaults` concern
which mapping is serialized, not the exact text. -/
def Node.render : Node → String
  | .val v => v.render
  | .list vs =>
    ("[") ++ String.intercalate (", ") (vs.map Val.render) ++ ("]")
  | .dict entries =>
    ("\x7b") ++ String.intercalate (", ") (renderEntries entries) ++ ("\x7d")

/-- Render the entries of a JSON object. -/
def renderEntries : List (String × Node) → List String
  | [] => []
  | (k, v) :: rest => (("\"") ++ k ++ ("\": ") ++ Node.render v) :: renderEntries rest

end

/-- `dump_defaults` (src/adaptune/config.py:41-58) acting on the
module-level `config` mapping: when `description is False` (the default) it
first executes `del config["__description__"]` — a `KeyError` when the key
is absent, modelled as `Except.error ()` — and then returns the serialized
string together with the (mutated) mapping; `puts` only prints and has no
state effect. -/
def dump_defaults (config : List (String × Node)) (description : Bool) :
    Except Unit (String × List (String × Node)) :=
  if description = false then
    match dictDel config ("__description__") with
    | none => Except.error ()
    | some config2 => Except.ok (Node.render (Node.dict config2), config2)
  else
    Except.ok (Node.render (Node.dict config), config)

/-! ## Concrete instances used by witnesses and counterexamples -/

/-- A configuration with every routable field unset. -/
def conf0 : Conf :=
  { hw_params :=
      { rate := none, formatname := none, fomatname := none,
        periodsize := none, channels := none }
    filter_params := { mu := none, w := none }
    filter_domain := none
    filter_algo := none
    devices := { main := none, monitor := none, input := none } }

/-- The scenario schema of the spec: `\x7bhw_params: \x7brate: [44100, 48000]\x7d\x7d`. -/
def rateSchema : List (String × Node) :=
  [(("hw_params"), Node.dict [(("rate"), Node.list [Val.n 44100, Val.n 48000])])]

/-- The full valid selection path of the scenario: `hw_params`, then
`rate`, then the value `48000`. -/
def rateTrace : List Val :=
  [Val.s ("hw_params"), Val.s ("rate"), Val.n 48000]

/-- The selection path used by the breadcrumb counterexample and witness:
`hw_params`, then `rate`, then the value `44100`. -/
def c4trace : List Val :=
  [Val.s ("hw_params"), Val.s ("rate"), Val.n 44100]

/-- The `PreferenceApp` state reached after `c4trace`. -/
def c4final : PrefState :=
  { attributes := Node.list []
    nodes := [Val.n 44100, Val.n 48000]
    current_node := Val.n 44100
    confdict := conf0
    all_done := true
    breadcrumb := " hw_params > rate > 44100" }

/-- A one-tap filter driver used by the determinism witness: period size 1,
zero initial weight, step size 0. -/
def fdW : FilterDriver :=
  { shape := [1, 1]
    filter_ :=
      { model := ("NLMS"), shape := [1, 1], mu := 0, lambda_ := 1,
        w := [0], buf := [], errAcc := 0, periodsize := 1 } }

/-- The driver state after `fdW.tune [1] [1]`. -/
def fd2W : FilterDriver :=
  { shape := [1, 1]
    filter_ :=
      { model := ("NLMS"), shape := [1, 1], mu := 0, lambda_ := 1,
        w := [0], buf := [1], errAcc := 1, periodsize := 1 } }

/-- A driver configured with `periodSize = 256` for the block-size
scenario. -/
def fd256 : FilterDriver :=
  { shape := [256, 1]
    filter_ :=
      { model := ("NLMS"), shape := [256, 1], mu := 1 / 2, lambda_ := 1,
        w := [0, 0], buf := [], errAcc := 0, periodsize := 256 } }

/-- A three-choice selection widget with the cursor on the last entry. -/
def icW : InquirerControl :=
  { nodes := [Val.s ("a3"), Val.s ("b3"), Val.s ("c3")], selected_index := 2 }

/-- A module-level `config` mapping as loaded from params.json, with its
`__description__` entry still present. -/
def cfgW : List (String × Node) :=
  [(("__description__"), Node.val (Val.s ("defaults"))),
   (("params"), Node.dict [(("rate"), Node.val (Val.n 44100))]),
   (("filter_domain"), Node.val (Val.s ("time")))]

/-- The module-level `config` mapping after config.py:63 has already
executed `del config["__description__"]` at import time — the state every
later `dump_defaults` call observes. -/
def cfgPostInit : List (String × Node) :=
  [(("params"), Node.dict [(("rate"), Node.val (Val.n 44100))]),
   (("filter_domain"), Node.val (Val.s ("time")))]

/-! ## Helper lemmas -/

/-- `_pref_conf` can never return `False`: its second branch condition
`choice == "alsa" or "sounddevice"` is truthy for every `choice`, so the
final `else` with `return False` is dead code and every call performs a
write. -/
theorem pref_conf_isSome (choice key : Val) (c : Conf) :
    (pref_conf choice key c).isSome = true := by
  unfold pref_conf
  by_cases h1 : choice = Val.s ("rate")
  · simp [h1]
  · have ht : (Val.s ("sounddevice")).truthy = true := rfl
    rw [if_neg h1, if_pos (Or.inr ht)]
    rfl

/-- `_setval_if_key_is_node` is the routing table `routeDest` applied at
`key_prev`: each branch writes the single destination the table names,
and a key with no table entry leaves the configuration unchanged. -/
theorem setval_route (c : Conf) (k v : Val) :
    setval_if_key_is_node c k v = applyRoute c (routeDest k) v := by
  by_cases h1 : k = Val.s ("rate")
  · subst h1; rfl
  by_cases h2 : k = Val.s ("periodsize")
  · subst h2; rfl
  by_cases h3 : k = Val.s ("channels")
  · subst h3; rfl
  by_cases h4 : k = Val.s ("alsa")
  · subst h4; rfl
  by_cases h5 : k = Val.s ("sounddevice")
  · subst h5; rfl
  by_cases h6 : k = Val.s ("w")
  · subst h6; rfl
  by_cases h7 : k = Val.s ("filter_domain")
  · subst h7; rfl
  by_cases h8 : k = Val.s ("filter_algo")
  · subst h8; rfl
  by_cases h9 : k = Val.s ("main")
  · subst h9; rfl
  by_cases h10 : k = Val.s ("monitor")
  · subst h10; rfl
  by_cases h11 : k = Val.s ("input")
  · subst h11; rfl
  simp [setval_if_key_is_node, routeDest, applyRoute,
    h1, h2, h3, h4, h5, h6, h7, h8, h9, h10, h11]

/-- Writes at distinct destinations commute. -/
theorem writeDest_comm (c : Conf) (d1 d2 : Dest) (h : d1 ≠ d2) (v1 v2 : Val) :
    writeDest (writeDest c d1 v1) d2 v2 = writeDest (writeDest c d2 v2) d1 v1 := by
  cases d1 <;> cases d2 <;> first
    | exact absurd rfl h
    | rfl

/-- A second write at the same destination overwrites the first. -/
theorem writeDest_last (c : Conf) (d : Dest) (v1 v2 : Val) :
    writeDest (writeDest c d v1) d v2 = writeDest c d v2 := by
  cases d <;> rfl

/-- Only a destination in the `devices` record changes the `devices`
record. -/
theorem writeDest_devices (c : Conf) (d : Dest) (v : Val)
    (h : d ≠ Dest.dmain ∧ d ≠ Dest.dmonitor ∧ d ≠ Dest.dinput) :
    (writeDest c d v).devices = c.devices := by
  cases d <;> first
    | rfl
    | exact absurd rfl h.1
    | exact absurd rfl h.2.1
    | exact absurd rfl h.2.2

/-- The routing table sends a key to a `devices` destination only when the
key is one of the three device-position keys. -/
theorem routeDest_devices_inv (k : Val)
    (h : routeDest k = some Dest.dmain ∨ routeDest k = some Dest.dmonitor ∨
      routeDest k = some Dest.dinput) :
    k = Val.s ("main") ∨ k = Val.s ("monitor") ∨ k = Val.s ("input") := by
  unfold routeDest at h
  rcases h with h | h | h <;> split_ifs at h <;> simp_all

/-- `select_index` never touches the breadcrumb: only `get_prompt_tokens`
appends to it. -/
theorem select_index_keeps_breadcrumb (devlist : List String)
    (st st2 : PrefState) (k : Val)
    (h : select_index devlist st k = some st2) :
    st2.breadcrumb = st.breadcrumb := by
  unfold select_index at h
  split at h
  · split_ifs at h
    · cases h; rfl
    · split at h
      · exact Option.noConfusion h
      · cases h; rfl
      · cases h; rfl
      · cases h; rfl
  · split_ifs at h <;> (cases h; rfl)
  · cases h; rfl

/-- The breadcrumb accumulated by a run of answered selections: every
selected label is appended via `breadcrumbAdd`. -/
theorem runTrace_breadcrumb (devlist : List String) (ks : List Val)
    (st st2 : PrefState) (h : runTrace devlist st ks = some st2) :
    st2.breadcrumb = ks.foldl breadcrumbAdd st.breadcrumb := by
  induction ks generalizing st with
  | nil =>
    unfold runTrace at h
    cases h
    rfl
  | cons k ks ih =>
    unfold runTrace at h
    cases hp : promptStep devlist st k with
    | none => rw [hp] at h; cases h
    | some st1 =>
      rw [hp] at h
      have hb : st1.breadcrumb = breadcrumbAdd st.breadcrumb k :=
        select_index_keeps_breadcrumb devlist _ st1 k hp
      rw [List.foldl_cons, ← hb]
      exact ih st1 h

/-! ## Claim theorems -/

/-- C1: evaluating the code at the spec scenario.  In `PreferenceApp`,
running the full selection path `hw_params`, `rate`, `48000` over the
schema `\x7bhw_params: \x7brate: [44100, 48000]\x7d\x7d` leaves the assembled
configuration unchanged: `current_node` — the `key_prev` handed to
`_setval_if_key_is_node` — ends up as the selected value `48000` rather
than the leaf-key `"rate"`, which matches no routing branch, so
`hw_params.rate` is never written.  In `ConfigurationApp`, `_pref_conf`
returns a value (performs a write) for every choice, so `select_item`
never descends and the leaf-key `"rate"` can never become the pending
`current_choice` either.  The claim that the scenario yields
`hw_params.rate == 48000` therefore fails on the code. -/
theorem c1_rate_selection_not_routed :
    runTrace [] (initState rateSchema conf0) rateTrace
      = some { attributes := Node.list []
               nodes := [Val.n 44100, Val.n 48000]
               current_node := Val.n 48000
               confdict := conf0
               all_done := true
               breadcrumb := " hw_params > rate > 48000" }
    ∧ conf0.hw_params.rate = none
    ∧ (∀ choice key c, (pref_conf choice key c).isSome = true) :=
  ⟨rfl, rfl, pref_conf_isSome⟩

/-- C2: evaluating the code at a leaf-key with no routing-table entry.
`"mu"` has no branch in `PreferenceApp._setval_if_key_is_node`: the call
falls through, leaves every field of the configuration unchanged and —
the function having no error path at all — reports nothing to its caller.
In `ConfigurationApp._pref_conf`, `"lambda"` has no entry either, yet the
always-truthy `choice == "alsa" or "sounddevice"` branch silently writes
it to `hw_params["fomatname"]`; the `return False` failure signal is
unreachable for every choice.  The claim that an unroutable key fails
(UnroutableKey) and is never silently ignored or silently written
elsewhere therefore fails on the code. -/
theorem c2_unroutable_key_not_reported :
    (∀ c v, setval_if_key_is_node c (Val.s ("mu")) v = c)
    ∧ (∀ c v, pref_conf (Val.s ("lambda")) v c
        = some { c with hw_params := { c.hw_params with fomatname := some v } })
    ∧ (∀ choice key c, (pref_conf choice key c).isSome = true) :=
  ⟨fun _ _ => rfl, fun _ _ => rfl, pref_conf_isSome⟩

/-- C4 counterexample: at the resolution point of the concrete run
`hw_params`, `rate`, `44100`, the code's breadcrumb is
`" hw_params > rate > 44100"` — it contains the descent into the value
list and the selected leaf value, not just the Branch labels
(`["hw_params"]` rendered as `" hw_params"`) — and after the wizard
returns to the tree root for the next round (`_initialize`/`set_header`)
the breadcrumb is still not empty. -/
theorem c4_breadcrumb_counterexample :
    ((runTrace [] (initState rateSchema conf0) c4trace).map PrefState.breadcrumb
      ≠ some (List.foldl breadcrumbAdd ("")
          (branchLabels (Node.dict rateSchema) c4trace)))
    ∧ ((runTrace [] (initState rateSchema conf0) c4trace).map
        (fun st => (backToRoot rateSchema st).breadcrumb) ≠ some ("")) := by
  constructor <;> decide

/-- C4 (amended): the breadcrumb at any point of a `PreferenceApp` run is
the fold of `breadcrumbAdd` over every answered selection — Branch labels,
the descent into the value list, and the leaf value alike — and returning
to the tree root (`backToRoot`) does not reset it. -/
theorem c4_breadcrumb_amended (devlist : List String)
    (schema : List (String × Node)) (ks : List Val) (st st2 : PrefState)
    (h : runTrace devlist st ks = some st2) :
    st2.breadcrumb = ks.foldl breadcrumbAdd st.breadcrumb
    ∧ (backToRoot schema st2).breadcrumb = st2.breadcrumb :=
  ⟨runTrace_breadcrumb devlist ks st st2 h, rfl⟩

/-- C4 witness: the amended statement at the concrete run `hw_params`,
`rate`, `44100`. -/
theorem c4_breadcrumb_amended_witness :
    runTrace [] (initState rateSchema conf0) c4trace = some c4final
    ∧ (c4final.breadcrumb
        = c4trace.foldl breadcrumbAdd (initState rateSchema conf0).breadcrumb
      ∧ (backToRoot rateSchema c4final).breadcrumb = c4final.breadcrumb) :=
  ⟨rfl, c4_breadcrumb_amended [] rateSchema c4trace (initState rateSchema conf0)
    c4final rfl⟩

/-- C5: in `PreferenceApp._setval_if_key_is_node` the claim holds — each of
`main`, `monitor`, `input` is written to `devices[key]` by the single
membership-guarded branch, and no other key can change the `devices`
record.  But in `ConfigurationApp._pref_conf` the claim fails: the
device-position branch is written as the always-truthy
`choice == "main" or "monitor" or "input"` **after** the always-truthy
`choice == "alsa" or "sounddevice"` branch, so selecting a device for
`"main"` writes `hw_params["fomatname"]` and never touches `devices`. -/
theorem c5_device_keys_one_rule :
    (∀ c v, setval_if_key_is_node c (Val.s ("main")) v
        = { c with devices := { c.devices with main := some v } })
    ∧ (∀ c v, setval_if_key_is_node c (Val.s ("monitor")) v
        = { c with devices := { c.devices with monitor := some v } })
    ∧ (∀ c v, setval_if_key_is_node c (Val.s ("input")) v
        = { c with devices := { c.devices with input := some v } })
    ∧ (∀ k v c, (setval_if_key_is_node c k v).devices = c.devices
        ∨ k = Val.s ("main") ∨ k = Val.s ("monitor") ∨ k = Val.s ("input"))
    ∧ (∀ c v, pref_conf (Val.s ("main")) v c
        = some { c with hw_params := { c.hw_params with fomatname := some v } }) := by
  refine ⟨fun _ _ => rfl, fun _ _ => rfl, fun _ _ => rfl, ?_, fun _ _ => rfl⟩
  intro k v c
  rw [setval_route]
  cases hr : routeDest k with
  | none => exact Or.inl rfl
  | some d =>
    by_cases hdev : d = Dest.dmain ∨ d = Dest.dmonitor ∨ d = Dest.dinput
    · refine Or.inr (routeDest_devices_inv k ?_)
      rcases hdev with h | h | h
      · exact Or.inl (h ▸ hr)
      · exact Or.inr (Or.inl (h ▸ hr))
      · exact Or.inr (Or.inr (h ▸ hr))
    · push_neg at hdev
      exact Or.inl (writeDest_devices c d v hdev)

/-- C6 counterexample: `"alsa"` and `"sounddevice"` are two distinct
leaf-keys of the routing chain that share the destination
`hw_params["formatname"]`, so routing them in the two orders yields
different configurations — assembly is not commutative for arbitrary
distinct leaf-keys. -/
theorem c6_commutativity_counterexample :
    setval_if_key_is_node
        (setval_if_key_is_node conf0 (Val.s ("alsa")) (Val.s ("A")))
        (Val.s ("sounddevice")) (Val.s ("B"))
      ≠ setval_if_key_is_node
        (setval_if_key_is_node conf0 (Val.s ("sounddevice")) (Val.s ("B")))
        (Val.s ("alsa")) (Val.s ("A")) := by
  decide

/-- C6 (amended): assembly is commutative for two leaf-keys whose routing
destinations differ (including when either key is unroutable); keys
sharing a destination — `alsa`/`sounddevice`, both writing
`hw_params["formatname"]` — are only last-write-wins; and routing the same
leaf-key twice always yields the second value. -/
theorem c6_assembly_amended (c : Conf) (k1 k2 v1 v2 : Val)
    (h : routeDest k1 = none ∨ routeDest k2 = none
      ∨ routeDest k1 ≠ routeDest k2) :
    setval_if_key_is_node (setval_if_key_is_node c k1 v1) k2 v2
      = setval_if_key_is_node (setval_if_key_is_node c k2 v2) k1 v1
    ∧ setval_if_key_is_node (setval_if_key_is_node c k1 v1) k1 v2
      = setval_if_key_is_node c k1 v2 := by
  constructor
  · simp only [setval_route]
    cases hr1 : routeDest k1 with
    | none => rfl
    | some d1 =>
      cases hr2 : routeDest k2 with
      | none => rfl
      | some d2 =>
        have hne : d1 ≠ d2 := by
          rcases h with h | h | h
          · rw [hr1] at h; exact absurd h (by simp)
          · rw [hr2] at h; exact absurd h (by simp)
          · intro he; apply h; rw [hr1, hr2, he]
        exact writeDest_comm c d1 d2 hne v1 v2
  · simp only [setval_route]
    cases hr1 : routeDest k1 with
    | none => rfl
    | some d => exact writeDest_last c d v1 v2

/-- C6 witness: the amended statement at the distinct-destination pair
`rate`/`w` with concrete values. -/
theorem c6_assembly_amended_witness :
    (routeDest (Val.s ("rate")) = none ∨ routeDest (Val.s ("w")) = none
      ∨ routeDest (Val.s ("rate")) ≠ routeDest (Val.s ("w")))
    ∧ (setval_if_key_is_node
          (setval_if_key_is_node conf0 (Val.s ("rate")) (Val.n 44100))
          (Val.s ("w")) (Val.n 7)
        = setval_if_key_is_node
          (setval_if_key_is_node conf0 (Val.s ("w")) (Val.n 7))
          (Val.s ("rate")) (Val.n 44100)
      ∧ setval_if_key_is_node
          (setval_if_key_is_node conf0 (Val.s ("rate")) (Val.n 44100))
          (Val.s ("rate")) (Val.n 7)
        = setval_if_key_is_node conf0 (Val.s ("rate")) (Val.n 7)) :=
  ⟨by decide, c6_assembly_amended conf0 (Val.s ("rate")) (Val.s ("w"))
    (Val.n 44100) (Val.n 7) (by decide)⟩

/-- An in-range cursor makes `get_selection` an in-bounds read. -/
theorem get_selection_isSome (ic : InquirerControl)
    (h0 : 0 ≤ ic.selected_index) (hlt : ic.selected_index < ic.choice_count) :
    (ic.get_selection).isSome = true := by
  have hb : ic.selected_index.toNat < ic.nodes.length := by
    unfold InquirerControl.choice_count at hlt
    omega
  unfold InquirerControl.get_selection
  rw [List.get?_eq_getElem?, List.getElem?_eq_getElem hb]
  rfl

/-- C7: for a non-empty choice list and an in-range cursor, moving down
yields `(i + 1) % n` and moving up `(i - 1) % n` (Python's `%`, a
Euclidean mod), both again in `[0, n)`, so `get_selection` never reads out
of bounds. -/
theorem c7_cursor_wraps (ic : InquirerControl) (hn : 0 < ic.choice_count)
    (h0 : 0 ≤ ic.selected_index) (hlt : ic.selected_index < ic.choice_count) :
    (move_cursor_down ic).selected_index
      = (ic.selected_index + 1) % ic.choice_count
    ∧ (move_cursor_up ic).selected_index
      = (ic.selected_index - 1) % ic.choice_count
    ∧ 0 ≤ (move_cursor_down ic).selected_index
    ∧ (move_cursor_down ic).selected_index < (move_cursor_down ic).choice_count
    ∧ 0 ≤ (move_cursor_up ic).selected_index
    ∧ (move_cursor_up ic).selected_index < (move_cursor_up ic).choice_count
    ∧ ((move_cursor_down ic).get_selection).isSome = true
    ∧ ((move_cursor_up ic).get_selection).isSome = true := by
  have hne : ic.choice_count ≠ 0 := by omega
  have hd0 : 0 ≤ (ic.selected_index + 1) % ic.choice_count :=
    Int.emod_nonneg _ hne
  have hdlt : (ic.selected_index + 1) % ic.choice_count < ic.choice_count :=
    Int.emod_lt_of_pos _ hn
  have hu0 : 0 ≤ (ic.selected_index - 1) % ic.choice_count :=
    Int.emod_nonneg _ hne
  have hult : (ic.selected_index - 1) % ic.choice_count < ic.choice_count :=
    Int.emod_lt_of_pos _ hn
  exact ⟨rfl, rfl, hd0, hdlt, hu0, hult,
    get_selection_isSome (move_cursor_down ic) hd0 hdlt,
    get_selection_isSome (move_cursor_up ic) hu0 hult⟩

/-- C7 witness: a three-choice widget with the cursor on the last entry;
moving down wraps to `0`. -/
theorem c7_cursor_wraps_witness :
    (0 < icW.choice_count ∧ 0 ≤ icW.selected_index
      ∧ icW.selected_index < icW.choice_count)
    ∧ ((move_cursor_down icW).selected_index
        = (icW.selected_index + 1) % icW.choice_count
      ∧ (move_cursor_up icW).selected_index
        = (icW.selected_index - 1) % icW.choice_count
      ∧ 0 ≤ (move_cursor_down icW).selected_index
      ∧ (move_cursor_down icW).selected_index < (move_cursor_down icW).choice_count
      ∧ 0 ≤ (move_cursor_up icW).selected_index
      ∧ (move_cursor_up icW).selected_index < (move_cursor_up icW).choice_count
      ∧ ((move_cursor_down icW).get_selection).isSome = true
      ∧ ((move_cursor_up icW).get_selection).isSome = true) :=
  ⟨by decide, c7_cursor_wraps icW (by decide) (by decide) (by decide)⟩

/-- C3: a `tune` call whose blocks have `N` samples with `N` different
from the configured period size fails with `BlockSizeMismatch` and does
not process, truncate or pad the block. -/
theorem c3_tune_block_size_mismatch (fd : FilterDriver)
    (desired observed : List ℚ) (N : Nat)
    (hd : desired.length = N) (ho : observed.length = N)
    (h : N ≠ fd.filter_.periodsize) :
    fd.tune desired observed = Except.error EngineError.BlockSizeMismatch := by
  unfold FilterDriver.tune FilterModel.apply
  rw [if_neg (by intro hc; exact h (by omega))]

/-- C3 witness: `periodSize = 256` and a 200-sample block. -/
theorem c3_tune_block_size_mismatch_witness :
    ((List.replicate 200 (0 : ℚ)).length = 200
      ∧ (List.replicate 200 (0 : ℚ)).length = 200
      ∧ 200 ≠ fd256.filter_.periodsize)
    ∧ fd256.tune (List.replicate 200 0) (List.replicate 200 0)
        = Except.error EngineError.BlockSizeMismatch :=
  ⟨⟨List.length_replicate 200 0, List.length_replicate 200 0, by decide⟩,
    c3_tune_block_size_mismatch fd256 _ _ 200 (List.length_replicate 200 0)
      (List.length_replicate 200 0) (by decide)⟩

/-- C8: the engine run is deterministic — any two `TuneTrace` runs from
the same driver state over the same (desired, observed) block sequence
record identical (filtered output, weight snapshot) trajectories. -/
theorem c8_tune_deterministic (fd : FilterDriver)
    (blocks tr1 tr2 : List (List ℚ × List ℚ))
    (h1 : TuneTrace fd blocks tr1) (h2 : TuneTrace fd blocks tr2) :
    tr1 = tr2 := by
  induction h1 generalizing tr2 with
  | nil fd =>
    cases h2
    rfl
  | cons fd fd2 d x out blocks tr hstep htail ih =>
    cases h2 with
    | cons _ fd2b _ _ outb _ trb hstepb htailb =>
      rw [hstep] at hstepb
      injection hstepb with he
      injection he with hout hfd
      subst hout
      subst hfd
      rw [ih trb htailb]

/-- A concrete singleton engine run used by the determinism witness. -/
theorem tuneTraceW : TuneTrace fdW [([1], [1])] [([0], [0])] := by
  have hstep : fdW.tune [1] [1] = Except.ok ([0], fd2W) := by
    simp [fdW, fd2W, FilterDriver.tune, FilterModel.apply,
      FilterModel.applyBlock, FilterModel.step, dot]
  exact TuneTrace.cons fdW fd2W [1] [1] [0] [] [] hstep (TuneTrace.nil fd2W)

/-- C8 witness: determinism applied to two copies of the concrete
singleton run. -/
theorem c8_tune_deterministic_witness :
    TuneTrace fdW [([1], [1])] [([0], [0])]
    ∧ ([([0], [0])] : List (List ℚ × List ℚ)) = [([0], [0])] :=
  ⟨tuneTraceW, c8_tune_deterministic fdW [([1], [1])] [([0], [0])]
    [([0], [0])] tuneTraceW tuneTraceW⟩

/-- C9: `get_filter_weights` returns the current coefficient vector and
leaves the driver — coefficients, history buffer, error statistic, shape,
indeed the whole state — unchanged. -/
theorem c9_get_filter_weights_pure (fd : FilterDriver) :
    (fd.get_filter_weights).1 = fd.filter_.w
    ∧ ((fd.get_filter_weights).2).filter_.w = fd.filter_.w
    ∧ ((fd.get_filter_weights).2).filter_.buf = fd.filter_.buf
    ∧ ((fd.get_filter_weights).2).filter_.errAcc = fd.filter_.errAcc
    ∧ ((fd.get_filter_weights).2).shape = fd.shape
    ∧ (fd.get_filter_weights).2 = fd :=
  ⟨rfl, rfl, rfl, rfl, rfl, rfl⟩

/-- `del` succeeds whenever the key is present. -/
theorem dictDel_isSome (d : List (String × Node)) (k : String)
    (h : d.lookup k ≠ none) : (dictDel d k).isSome = true := by
  induction d with
  | nil => exact absurd rfl h
  | cons hd tl ih =>
    unfold dictDel
    by_cases he : hd.1 = k
    · simp [he]
    · simp only [List.lookup] at h
      have hne : (k == hd.1) = false := by
        simp [beq_iff_eq]
        intro hc
        exact he hc.symm
      rw [hne] at h
      rw [if_neg he]
      cases hdd : dictDel tl k with
      | none =>
        exfalso
        have hs := ih h
        rw [hdd] at hs
        exact absurd hs (by simp)
      | some r => rfl

/-- `del config[k]` leaves the binding of every other key unchanged. -/
theorem dictDel_lookup_other (d d2 : List (String × Node)) (k k2 : String)
    (hne : k2 ≠ k) (h : dictDel d k = some d2) :
    d2.lookup k2 = d.lookup k2 := by
  induction d generalizing d2 with
  | nil => exact Option.noConfusion h
  | cons hd tl ih =>
    unfold dictDel at h
    by_cases he : hd.1 = k
    · rw [if_pos he] at h
      injection h with h
      subst h
      simp only [List.lookup]
      have hb : (k2 == hd.1) = false := by
        simp [beq_iff_eq]
        intro hc
        exact hne (hc.trans he)
      rw [hb]
    · rw [if_neg he] at h
      cases hdd : dictDel tl k with
      | none => rw [hdd] at h; exact Option.noConfusion h
      | some r =>
        rw [hdd] at h
        injection h with h
        subst h
        simp only [List.lookup]
        rw [ih r hdd]

/-- On a dict with unique keys (a Python dict invariant), a key is absent
after `del`. -/
theorem lookup_none_of_not_mem_keys (k : String) (d : List (String × Node))
    (h : ¬ k ∈ d.map Prod.fst) : d.lookup k = none := by
  induction d with
  | nil => rfl
  | cons hd tl ih =>
    simp only [List.map_cons, List.mem_cons] at h
    push_neg at h
    simp only [List.lookup]
    have hb : (k == hd.1) = false := by simp [beq_iff_eq, h.1]
    rw [hb]
    exact ih h.2

/-- After a successful `del config[k]` on a unique-key dict, `k` has no
binding. -/
theorem dictDel_lookup_self (d d2 : List (String × Node)) (k : String)
    (hnd : (d.map Prod.fst).Nodup) (h : dictDel d k = some d2) :
    d2.lookup k = none := by
  induction d generalizing d2 with
  | nil => exact Option.noConfusion h
  | cons hd tl ih =>
    unfold dictDel at h
    simp only [List.map_cons, List.nodup_cons] at hnd
    by_cases he : hd.1 = k
    · rw [if_pos he] at h
      injection h with h
      subst h
      apply lookup_none_of_not_mem_keys
      rw [← he]
      exact hnd.1
    · rw [if_neg he] at h
      cases hdd : dictDel tl k with
      | none => rw [hdd] at h; exact Option.noConfusion h
      | some r =>
        rw [hdd] at h
        injection h with h
        subst h
        simp only [List.lookup]
        have hb : (k == hd.1) = false := by
          simp [beq_iff_eq]
          intro hc
          exact he hc.symm
        rw [hb]
        exact ih r hnd.2 hdd

/-- C10 counterexample: the module top level of config.py already deletes
`__description__` at import time (config.py:63), so by the time any caller
can invoke `dump_defaults()` the key is gone and the default
`description=False` path raises `KeyError` instead of returning the
mapping with its serialization. -/
theorem c10_dump_defaults_counterexample :
    dump_defaults cfgPostInit false = Except.error () := by
  rfl

/-- C10 (amended): provided `__description__` is still present in the
unique-key mapping `config`, `dump_defaults` with `description = false`
succeeds, removes exactly that key (every other binding unchanged, the
removed key unbound) and returns the mutated mapping together with its
serialization; with `description = true` it modifies nothing and returns
the mapping as is.  When the key is absent — the state after module
initialization — the call fails with `KeyError` instead. -/
theorem c10_dump_defaults_amended (config : List (String × Node))
    (hk : config.lookup ("__description__") ≠ none)
    (hnd : (config.map Prod.fst).Nodup) :
    dump_defaults config false ≠ Except.error ()
    ∧ (∀ s config2, dump_defaults config false = Except.ok (s, config2) →
        config2.lookup ("__description__") = none
        ∧ (∀ k2, k2 ≠ ("__description__") → config2.lookup k2 = config.lookup k2)
        ∧ s = Node.render (Node.dict config2))
    ∧ dump_defaults config true
        = Except.ok (Node.render (Node.dict config), config) := by
  have hs := dictDel_isSome config ("__description__") hk
  obtain ⟨d2, hd2⟩ := Option.isSome_iff_exists.mp hs
  refine ⟨?_, ?_, rfl⟩
  · unfold dump_defaults
    rw [if_pos rfl, hd2]
    exact fun hc => Except.noConfusion hc
  · intro s config2 hok
    unfold dump_defaults at hok
    rw [if_pos rfl, hd2] at hok
    injection hok with hok
    injection hok with hs2 hc2
    have h1 := dictDel_lookup_self config d2 ("__description__") hnd hd2
    have h2 := fun k2 hk2 =>
      dictDel_lookup_other config d2 ("__description__") k2 hk2 hd2
    refine ⟨hc2 ▸ h1, fun k2 hk2 => hc2 ▸ h2 k2 hk2, ?_⟩
    rw [← hs2, ← hc2]

/-- C10 witness: the amended statement at a concrete mapping still holding
its `__description__` entry. -/
theorem c10_dump_defaults_amended_witness :
    (cfgW.lookup ("__description__") ≠ none ∧ (cfgW.map Prod.fst).Nodup)
    ∧ (dump_defaults cfgW false ≠ Except.error ()
      ∧ (∀ s config2, dump_defaults cfgW false = Except.ok (s, config2) →
          config2.lookup ("__description__") = none
          ∧ (∀ k2, k2 ≠ ("__description__") → config2.lookup k2 = cfgW.lookup k2)
          ∧ s = Node.render (Node.dict config2))
      ∧ dump_defaults cfgW true
          = Except.ok (Node.render (Node.dict cfgW), cfgW)) :=
  ⟨⟨fun hc => Option.noConfusion hc, by decide⟩,
    c10_dump_defaults_amended cfgW (fun hc => Option.noConfusion hc) (by decide)⟩

end Adaptune
